import Mathlib

/-!
# Verification of the SpectrumAnalyzer instrument-communication core

Shallow embedding of `src/SpectrumAnalyzer.py` (class `SpectrumAnalyzer`):
the IEEE binary block decoder, the SCPI command/query channel with its
connection precondition, the measurement operations (peak search, band
power, occupied bandwidth), trace acquisition with frequency-axis
synthesis, and the screenshot fallback-chain retrieval.

Modelling conventions:
- bytes are `Nat` (values 0..255 in practice), byte strings are `List Nat`;
- Python exceptions are an explicit error type `PyErr`; a function that can
  raise returns `Except PyErr _`;
- the instrument at the far end of the VISA link is an oracle: each
  write/query carries an oracle verdict (`Except PyErr _`) saying whether
  that transport interaction succeeds and with which response text;
- numeric values computed by the Python code are rationals `ℚ`
  (the code's float arithmetic, modelled exactly over ℚ);
- fragmentation of transport reads is an oracle `frag : Nat → Nat` giving,
  at each loop iteration, how much of the requested data the transport
  actually delivers (clamped to at least one byte while data is available,
  and to at most the requested amount).
-/

/-- Python-level faults raised by the wrapper. -/
inductive PyErr where
  /-- Fault `ValueError("Analyzer not connected")` raised by `write`/`query`
  and by the explicit `if not self.sa` guards. -/
  | notConnected
  /-- Fault `RuntimeError("Not an IEEE block")` from `_read_ieee_block`. -/
  | malformedBlock
  /-- Fault `ValueError` from `int(...)`/`float(...)` on a non-numeric string. -/
  | valueError
  /-- Fault `RuntimeError("No trace data returned")` from `fetch_trace`. -/
  | noData
  /-- a VISA timeout or I/O error surfacing from the transport. -/
  | timeout
  deriving DecidableEq

/-- True iff byte `b` is an ASCII decimal digit: exactly the single
characters accepted by Python's `int(chr(b))` for `b < 256`. -/
def isAsciiDigit (b : Nat) : Bool := decide (48 ≤ b ∧ b ≤ 57)

/-- Accumulator loop of decimal parsing of a digit-byte string;
`none` on any non-digit byte (Python `int(...)` raises `ValueError`). -/
def parseDecimalAux : List Nat → Nat → Option Nat
  | [], acc => some acc
  | b :: bs, acc =>
    if isAsciiDigit b then parseDecimalAux bs (acc * 10 + (b - 48)) else none

/-- Python `int(s)` on the decoded length-digit bytes: the decimal value
when every byte is a digit and the string is non-empty, else a
`ValueError` (modelled as `none`). -/
def parseDecimal (bs : List Nat) : Option Nat :=
  match bs with
  | [] => none
  | _ => parseDecimalAux bs 0

/-- The payload-accumulation loop of `_read_ieee_block`:

    data, remaining = bytearray(), total
    while remaining:
        chunk = self.sa.read_bytes(min(1_048_576, remaining))
        data.extend(chunk)
        remaining -= len(chunk)

A single `read_bytes(req)` may deliver fewer than `req` bytes: the
transport fragments per the oracle `frag` (at iteration `i` it delivers
`min (min req avail) (max (frag i) 1)` bytes where `avail` is what the
stream still holds).  `fuel` bounds the number of iterations; `none`
models the loop never completing (a blocked read / VISA timeout). -/
def readChunks (frag : Nat → Nat) : Nat → Nat → Nat → List Nat → Option (List Nat)
  | 0, remaining, _, _ => if remaining = 0 then some [] else none
  | fuel + 1, remaining, i, stream =>
    if remaining = 0 then some []
    else
      let req := min 1048576 remaining
      let k := min (min req stream.length) (max (frag i) 1)
      let chunk := stream.take k
      match readChunks frag fuel (remaining - chunk.length) (i + 1) (stream.drop k) with
      | some rest => some (chunk ++ rest)
      | none => none

/-- Translation of `SpectrumAnalyzer._read_ieee_block` over the incoming byte stream:
read 2 header bytes; fail with `malformedBlock` unless the first is
`ord('#') = 35`; `int(chr(hdr[1]))` gives the count of length digits
(raising `ValueError` on a non-digit); read and parse that many length
bytes; then accumulate exactly `total` payload bytes in bounded chunks.
A read past the end of the stream is a transport timeout. -/
def read_ieee_block (frag : Nat → Nat) (stream : List Nat) : Except PyErr (List Nat) :=
  match stream with
  | h0 :: h1 :: rest =>
    if h0 ≠ 35 then .error .malformedBlock
    else if isAsciiDigit h1 then
      let nDigits := h1 - 48
      if rest.length < nDigits then .error .timeout
      else
        match parseDecimal (rest.take nDigits) with
        | some total =>
          match readChunks frag total total 0 (rest.drop nDigits) with
          | some data => .ok data
          | none => .error .timeout
        | none => .error .valueError
    else .error .valueError
  | _ => .error .timeout

/-- The accumulation loop delivers exactly the first `L` stream bytes
whenever the stream holds at least `L` bytes, for every fragmentation
oracle, provided at least `L` iterations of fuel (each iteration
consumes at least one byte). -/
theorem readChunks_complete (frag : Nat → Nat) :
    ∀ fuel L i stream, L ≤ fuel → L ≤ stream.length →
      readChunks frag fuel L i stream = some (stream.take L) := by
  intro fuel
  induction fuel with
  | zero =>
    intro L i s hF hS
    have hL : L = 0 := Nat.le_zero.mp hF
    subst hL
    simp [readChunks]
  | succ n ih =>
    intro L i s hF hS
    by_cases hL : L = 0
    · subst hL; simp [readChunks]
    · have hL1 : 1 ≤ L := Nat.one_le_iff_ne_zero.mpr hL
      have hreq1 : 1 ≤ min 1048576 L := le_min (by norm_num) hL1
      have hkL : min (min (min 1048576 L) s.length) (max (frag i) 1) ≤ L :=
        le_trans (le_trans (min_le_left _ _) (min_le_left _ _)) (min_le_right _ _)
      have hks : min (min (min 1048576 L) s.length) (max (frag i) 1) ≤ s.length :=
        le_trans (min_le_left _ _) (min_le_right _ _)
      have hk1 : 1 ≤ min (min (min 1048576 L) s.length) (max (frag i) 1) :=
        le_min (le_min hreq1 (le_trans hL1 hS)) (le_max_right _ _)
      set k := min (min (min 1048576 L) s.length) (max (frag i) 1) with hk
      have hchunk : (s.take k).length = k := by
        rw [List.length_take]
        exact min_eq_left hks
      have hrec : readChunks frag n (L - k) (i + 1) (s.drop k) =
          some ((s.drop k).take (L - k)) := by
        apply ih
        · omega
        · rw [List.length_drop]; omega
      have hjoin : s.take k ++ (s.drop k).take (L - k) = s.take L := by
        rw [← List.take_add]
        congr 1
        omega
      unfold readChunks
      rw [if_neg hL]
      simp only [← hk, hchunk, hrec, hjoin]

/-- C1: for every valid IEEE block input — marker byte, a digit `d` giving
the count of length-digit bytes, length bytes parsing to `L`, and a
payload stream holding at least `L` bytes — the decoder returns exactly
the first `L` payload bytes, for every fragmentation of the reads, and
the returned payload has length exactly `L`. -/
theorem ieee_block_decodes_full_length (frag : Nat → Nat) (d L : Nat)
    (lenBytes payload : List Nat)
    (hd : isAsciiDigit d = true) (hnd : d - 48 = lenBytes.length)
    (hparse : parseDecimal lenBytes = some L) (hpay : L ≤ payload.length) :
    read_ieee_block frag (35 :: d :: (lenBytes ++ payload)) = .ok (payload.take L) ∧
      (payload.take L).length = L := by
  constructor
  · have hlen : ¬ ((lenBytes ++ payload).length < d - 48) := by
      rw [List.length_append]; omega
    have htake : (lenBytes ++ payload).take (d - 48) = lenBytes := by
      rw [hnd]; exact List.take_left lenBytes payload
    have hdrop : (lenBytes ++ payload).drop (d - 48) = payload := by
      rw [hnd]; exact List.drop_left lenBytes payload
    have hchunks : readChunks frag L L 0 payload = some (payload.take L) :=
      readChunks_complete frag L L 0 payload le_rfl hpay
    simp only [read_ieee_block, hd, if_true, if_neg hlen, htake, hdrop, hparse, hchunks]
    simp
  · rw [List.length_take]
    exact min_eq_left hpay

/-- Witness for C1: block `#`, `'2'`, length digits `"10"`, followed by a
12-byte stream, decoded under a non-trivially varying fragmentation
schedule, yields exactly the first 10 payload bytes. -/
theorem ieee_block_decodes_full_length_witness :
    read_ieee_block (fun i => i + 1)
        (35 :: 50 :: ([49, 48] ++ [7, 6, 5, 4, 3, 2, 1, 0, 9, 8, 70, 71])) =
      .ok [7, 6, 5, 4, 3, 2, 1, 0, 9, 8] ∧
      ([7, 6, 5, 4, 3, 2, 1, 0, 9, 8] : List Nat).length = 10 := by
  have h := ieee_block_decodes_full_length (fun i => i + 1) 50 10 [49, 48]
    [7, 6, 5, 4, 3, 2, 1, 0, 9, 8, 70, 71] (by decide) (by decide) (by rfl) (by decide)
  simpa using h

/-- C8: for every input whose first byte is not the marker `'#'`, the
decoder fails with the malformed-block error, whatever the second byte
(and the rest of the stream). -/
theorem ieee_block_rejects_bad_marker (frag : Nat → Nat) (b0 b1 : Nat)
    (rest : List Nat) (h : b0 ≠ 35) :
    read_ieee_block frag (b0 :: b1 :: rest) = .error .malformedBlock := by
  simp [read_ieee_block, h]

/-- Witness for C8: first byte `0`, second byte a valid digit `'9'`. -/
theorem ieee_block_rejects_bad_marker_witness :
    read_ieee_block (fun _ => 1) (0 :: 57 :: [49, 48, 1, 2]) = .error .malformedBlock :=
  ieee_block_rejects_bad_marker (fun _ => 1) 0 57 [49, 48, 1, 2] (by decide)

/-- C10: when the first byte is the marker but the second byte is not an
ASCII decimal digit, the decoder fails with the number-parse error
(`ValueError` from `int(chr(hdr[1]))`), which is a different fault from
the malformed-block error: the malformed-block check covers only the
marker byte. -/
theorem ieee_block_nondigit_count_parse_fault (frag : Nat → Nat) (b1 : Nat)
    (rest : List Nat) (h : isAsciiDigit b1 = false) :
    read_ieee_block frag (35 :: b1 :: rest) = .error .valueError ∧
      PyErr.valueError ≠ PyErr.malformedBlock := by
  constructor
  · simp [read_ieee_block, h]
  · decide

/-- Witness for C10: marker followed by `'A'` (65). -/
theorem ieee_block_nondigit_count_parse_fault_witness :
    read_ieee_block (fun _ => 1) (35 :: 65 :: [49, 48, 1, 2]) = .error .valueError ∧
      PyErr.valueError ≠ PyErr.malformedBlock :=
  ieee_block_nondigit_count_parse_fault (fun _ => 1) 65 [49, 48, 1, 2] (by decide)

/-! ## Session state and the command/query channel -/

/-- The live VISA resource handle `self.sa`: its response `timeout`
(milliseconds) and its `chunk_size` attribute.  `chunk_size` is an
`Option` because `capture_screen` reads it defensively with
`getattr(self.sa, "chunk_size", 20000)`: the attribute may be absent. -/
structure Handle where
  timeout : Nat
  chunk_size : Option Nat
  deriving DecidableEq

/-- The `SpectrumAnalyzer` object state relevant to the modelled
operations: `self.sa` is `none` when disconnected.  (The object also
stores `resource_address` and the default `timeout` used by `connect`;
no modelled operation reads them, so they are omitted.) -/
structure SAState where
  sa : Option Handle
  deriving DecidableEq

/-- Model of `getattr(self.sa, "chunk_size", 20000)`: the chunk size observable
on a handle. -/
def Handle.observedChunk (h : Handle) : Nat := h.chunk_size.getD 20000

/-- Method `SpectrumAnalyzer.write`: raises `ValueError("Analyzer not
connected")` when `self.sa` is `None`, otherwise performs the transport
write, whose outcome is the oracle verdict `v`. -/
def SAState.write (st : SAState) (v : Except PyErr Unit) : Except PyErr Unit :=
  match st.sa with
  | none => .error .notConnected
  | some _ => v

/-- Method `SpectrumAnalyzer.query`: same precondition; on success the response
line (already stripped) is the oracle's string. -/
def SAState.query (st : SAState) (v : Except PyErr String) : Except PyErr String :=
  match st.sa with
  | none => .error .notConnected
  | some _ => v

/-- Method `SpectrumAnalyzer.query_binary_values`: same precondition; on
success the parsed float samples are the oracle's list. -/
def SAState.query_binary_values (st : SAState) (v : Except PyErr (List ℚ)) :
    Except PyErr (List ℚ) :=
  match st.sa with
  | none => .error .notConnected
  | some _ => v

/-! ## Measurement Engine -/

/-- Oracle for one peak-search call: the verdicts of the marker-move
write (`CALC:MARK:MAX` / `CALC:MARK:MIN`) and the `CALC:MARK:Y?` query. -/
structure PeakOracle where
  markCmd : Except PyErr Unit
  yQuery : Except PyErr String

/-- Method `get_current_high_peak`: `try: write("CALC:MARK:MAX"); return
query("CALC:MARK:Y?") except Exception: return None`.  The catch-all
`except` also swallows the not-connected `ValueError` raised by
`write`, so the function never raises: `.ok none` models a returned
`None`. -/
def get_current_high_peak (st : SAState) (o : PeakOracle) :
    Except PyErr (Option String) :=
  match (st.write o.markCmd).bind (fun _ => st.query o.yQuery) with
  | .ok v => .ok (some v)
  | .error _ => .ok none

/-- Method `get_current_low_peak`: identical shape with `CALC:MARK:MIN`. -/
def get_current_low_peak (st : SAState) (o : PeakOracle) :
    Except PyErr (Option String) :=
  match (st.write o.markCmd).bind (fun _ => st.query o.yQuery) with
  | .ok v => .ok (some v)
  | .error _ => .ok none

/-- Oracle for one `read_obwidth` call. -/
structure ObwOracle where
  /-- write `:SENSe:OBWidth:FREQ:SPAN <span> Hz` -/
  spanSet : Except PyErr Unit
  /-- query `:SENSe:OBWidth:FREQ:SPAN?` -/
  spanQ : Except PyErr String
  /-- query `:READ:OBWidth?` -/
  readQ : Except PyErr String

/-- The span computation at the head of `read_obwidth`:
`if None in (ob_symbol_rate, ob_spread_factor, ob_tx_roll_off)` use the
fixed `10e6` Hz default, else
`ob_symbol_rate * 1e3 * ob_spread_factor * (1 + ob_tx_roll_off) * 2`. -/
def obw_span_hz (ob_symbol_rate : Option ℚ) (ob_spread_factor : Option ℤ)
    (ob_tx_roll_off : Option ℚ) : ℚ :=
  match ob_symbol_rate, ob_spread_factor, ob_tx_roll_off with
  | some sr, some sf, some ro => sr * 1000 * (sf : ℚ) * (1 + ro) * 2
  | _, _, _ => 10000000

/-- Method `read_obwidth`: computes the span, writes it, reads it back, then
queries `:READ:OBWidth?`; the whole body is wrapped in `try/except
Exception` returning `None` — including the not-connected `ValueError`
from `write`/`query`.  Returns the (possibly absent) result together
with the span value that the span-set command applied. -/
def read_obwidth (st : SAState) (ob_symbol_rate : Option ℚ)
    (ob_spread_factor : Option ℤ) (ob_tx_roll_off : Option ℚ) (o : ObwOracle) :
    Except PyErr (Option String) × ℚ :=
  let span_hz := obw_span_hz ob_symbol_rate ob_spread_factor ob_tx_roll_off
  let body : Except PyErr String :=
    (st.write o.spanSet).bind fun _ =>
      (st.query o.spanQ).bind fun _readback =>
        st.query o.readQ
  let result : Except PyErr (Option String) :=
    match body with
    | .ok r => .ok (some r)
    | .error _ => .ok none
  (result, span_hz)

/-- Oracle for one `get_band_power` call, one verdict per transport
interaction, in program order. -/
structure BandOracle where
  /-- write `CALC:MARK1:STAT ON` -/
  statOn : Except PyErr Unit
  /-- write `CALC:MARK1:FUNC:BAND ON` -/
  bandOn : Except PyErr Unit
  /-- query `CALC:MARK1:FUNC?` -/
  funcQ : Except PyErr String
  /-- write `CALC:MARK1:FUNC:BAND:SPAN <span>` -/
  spanSet : Except PyErr Unit
  /-- query `CALC:MARK1:FUNC:BAND:SPAN?` -/
  spanQ : Except PyErr String
  /-- query `CALC:MARK:FUNC BPOW` (the known-flaky select step) -/
  bpowSel : Except PyErr String
  /-- query `CALC:MARK1:Y?` -/
  yQ : Except PyErr String

/-- Method `get_band_power`: raises the not-connected `ValueError` when
`self.sa` is `None` (this check precedes the `try`); otherwise saves
`old_timeout = self.sa.timeout`, sets the timeout to `10000`, runs the
marker sequence under `try/except Exception → None`, and in `finally`
restores `self.sa.timeout = old_timeout` on every path.  The inner
`try/except` around the `CALC:MARK:FUNC BPOW` query only logs a warning:
its verdict is ignored and the sequence continues either way.  Returns
(result, final object state, the SCPI commands issued in order). -/
def get_band_power (st : SAState) (band_span_hz : ℚ) (o : BandOracle) :
    Except PyErr (Option String) × SAState × List String :=
  match st.sa with
  | none => (.error .notConnected, st, [])
  | some h =>
    let old_timeout := h.timeout
    let h1 : Handle := { h with timeout := 10000 }
    let st1 : SAState := ⟨some h1⟩
    let restored : SAState := ⟨some { h1 with timeout := old_timeout }⟩
    let spanCmd := "CALC:MARK1:FUNC:BAND:SPAN " ++ toString band_span_hz
    match st1.write o.statOn with
    | .error _ => (.ok none, restored, ["CALC:MARK1:STAT ON"])
    | .ok _ =>
      match st1.write o.bandOn with
      | .error _ => (.ok none, restored,
          ["CALC:MARK1:STAT ON", "CALC:MARK1:FUNC:BAND ON"])
      | .ok _ =>
        match st1.query o.funcQ with
        | .error _ => (.ok none, restored,
            ["CALC:MARK1:STAT ON", "CALC:MARK1:FUNC:BAND ON", "CALC:MARK1:FUNC?"])
        | .ok _status =>
          match st1.write o.spanSet with
          | .error _ => (.ok none, restored,
              ["CALC:MARK1:STAT ON", "CALC:MARK1:FUNC:BAND ON", "CALC:MARK1:FUNC?",
               spanCmd])
          | .ok _ =>
            match st1.query o.spanQ with
            | .error _ => (.ok none, restored,
                ["CALC:MARK1:STAT ON", "CALC:MARK1:FUNC:BAND ON", "CALC:MARK1:FUNC?",
                 spanCmd, "CALC:MARK1:FUNC:BAND:SPAN?"])
            | .ok _span_rb =>
              let _bpow := st1.query o.bpowSel
              let log6 := ["CALC:MARK1:STAT ON", "CALC:MARK1:FUNC:BAND ON",
                           "CALC:MARK1:FUNC?", spanCmd, "CALC:MARK1:FUNC:BAND:SPAN?",
                           "CALC:MARK:FUNC BPOW"]
              match st1.query o.yQ with
              | .error _ => (.ok none, restored, log6 ++ ["CALC:MARK1:Y?"])
              | .ok power => (.ok (some power), restored, log6 ++ ["CALC:MARK1:Y?"])

/-- C3: `read_obwidth` applies `symbolRate(kHz) * 1000 * spreadFactor *
(1 + rollOff) * 2` Hz when all three parameters are present (e.g.
1000 Ksps, factor 7, roll-off 0.35 gives 18 900 000 Hz) and exactly
10 000 000 Hz when any of the three is absent; the span paired with the
call is exactly this computed span. -/
theorem obw_span_formula :
    (∀ sr sf ro, obw_span_hz (some sr) (some sf) (some ro) =
        sr * 1000 * (sf : ℚ) * (1 + ro) * 2) ∧
    obw_span_hz (some 1000) (some 7) (some (35 / 100)) = 18900000 ∧
    (∀ sr sf ro, sr = none ∨ sf = none ∨ ro = none →
        obw_span_hz sr sf ro = 10000000) ∧
    (∀ st sr sf ro o, (read_obwidth st sr sf ro o).2 = obw_span_hz sr sf ro) := by
  refine ⟨fun sr sf ro => rfl, ?_, ?_, fun st sr sf ro o => rfl⟩
  · show (1000 : ℚ) * 1000 * ((7 : ℤ) : ℚ) * (1 + 35 / 100) * 2 = 18900000
    norm_num
  · intro sr sf ro h
    cases sr with
    | none => cases sf <;> cases ro <;> rfl
    | some a =>
      cases sf with
      | none => cases ro <;> rfl
      | some b =>
        cases ro with
        | none => rfl
        | some c => simp at h

/-- Witness for C3: the triple (3 Ksps, factor 2, roll-off 1) gives
3·1000·2·2·2 = 24 000 Hz; dropping the symbol rate gives the 10 MHz
default. -/
theorem obw_span_formula_witness :
    obw_span_hz (some 3) (some 2) (some 1) = 24000 ∧
    obw_span_hz none (some 2) (some 1) = 10000000 := by
  constructor
  · rw [obw_span_formula.1 3 2 1]; norm_num
  · exact obw_span_formula.2.2.1 none (some 2) (some 1) (Or.inl rfl)

/-- Counterexample to C5: with no live session (`self.sa = None`),
`get_current_high_peak` returns the "unavailable" marker (`None`)
instead of failing hard: the catch-all `except Exception` swallows the
not-connected `ValueError` raised by `write`.  So the result is a
normal return, not the not-connected fault. -/
theorem peak_not_connected_swallowed :
    get_current_high_peak ⟨none⟩ ⟨.ok (), .ok "-10.0"⟩ = .ok none ∧
      (Except.ok (none : Option String) : Except PyErr (Option String)) ≠
        .error .notConnected := by
  exact ⟨rfl, by simp⟩

/-- C5 amended: every Measurement Engine operation degrades to the
"unavailable" marker (`None`) when an internal step fails on a
connected session, and never raises there — with one asymmetry: only
`get_band_power` checks the session before its `try` and fails hard
with the not-connected fault when the session is absent; high/low peak
search and occupied bandwidth swallow even the not-connected fault
through their catch-all handler and return "unavailable". -/
theorem measurement_engine_error_policy :
    (∀ st o, st.sa = none → get_current_high_peak st o = .ok none) ∧
    (∀ st o, st.sa = none → get_current_low_peak st o = .ok none) ∧
    (∀ st sr sf ro o, st.sa = none → (read_obwidth st sr sf ro o).1 = .ok none) ∧
    (∀ st span o, st.sa = none → (get_band_power st span o).1 = .error .notConnected) ∧
    (∀ st h o e, st.sa = some h →
      o.markCmd = .error e ∨ o.yQuery = .error e →
      get_current_high_peak st o = .ok none) ∧
    (∀ st h o e, st.sa = some h →
      o.markCmd = .error e ∨ o.yQuery = .error e →
      get_current_low_peak st o = .ok none) ∧
    (∀ st h sr sf ro o e, st.sa = some h →
      o.spanSet = .error e ∨ o.spanQ = .error e ∨ o.readQ = .error e →
      (read_obwidth st sr sf ro o).1 = .ok none) ∧
    (∀ st h span o e, st.sa = some h →
      o.statOn = .error e ∨ o.bandOn = .error e ∨ o.funcQ = .error e ∨
        o.spanSet = .error e ∨ o.spanQ = .error e ∨ o.yQ = .error e →
      (get_band_power st span o).1 = .ok none) ∧
    (∀ st o, ∃ v, get_current_high_peak st o = .ok v) ∧
    (∀ st o, ∃ v, get_current_low_peak st o = .ok v) ∧
    (∀ st sr sf ro o, ∃ v, (read_obwidth st sr sf ro o).1 = .ok v) ∧
    (∀ st h span o, st.sa = some h → ∃ v, (get_band_power st span o).1 = .ok v) := by
  refine ⟨?_, ?_, ?_, ?_, ?_, ?_, ?_, ?_, ?_, ?_, ?_, ?_⟩
  · intro st o hsa
    obtain ⟨sa⟩ := st
    obtain rfl : sa = none := hsa
    rfl
  · intro st o hsa
    obtain ⟨sa⟩ := st
    obtain rfl : sa = none := hsa
    rfl
  · intro st sr sf ro o hsa
    obtain ⟨sa⟩ := st
    obtain rfl : sa = none := hsa
    rfl
  · intro st span o hsa
    obtain ⟨sa⟩ := st
    obtain rfl : sa = none := hsa
    rfl
  · intro st h o e hsa hfail
    obtain ⟨sa⟩ := st
    obtain rfl : sa = some h := hsa
    obtain ⟨m, y⟩ := o
    rcases m with e1 | u1
    · rfl
    rcases y with e2 | v2
    · rfl
    · rcases hfail with hf | hf <;> simp at hf
  · intro st h o e hsa hfail
    obtain ⟨sa⟩ := st
    obtain rfl : sa = some h := hsa
    obtain ⟨m, y⟩ := o
    rcases m with e1 | u1
    · rfl
    rcases y with e2 | v2
    · rfl
    · rcases hfail with hf | hf <;> simp at hf
  · intro st h sr sf ro o e hsa hfail
    obtain ⟨sa⟩ := st
    obtain rfl : sa = some h := hsa
    obtain ⟨o1, o2, o3⟩ := o
    rcases o1 with e1 | u1
    · rfl
    rcases o2 with e2 | v2
    · rfl
    rcases o3 with e3 | v3
    · rfl
    · rcases hfail with hf | hf | hf <;> simp at hf
  · intro st h span o e hsa hfail
    obtain ⟨sa⟩ := st
    obtain rfl : sa = some h := hsa
    obtain ⟨o1, o2, o3, o4, o5, o6, o7⟩ := o
    rcases o1 with e1 | u1
    · rfl
    rcases o2 with e2 | u2
    · rfl
    rcases o3 with e3 | v3
    · rfl
    rcases o4 with e4 | u4
    · rfl
    rcases o5 with e5 | v5
    · rfl
    rcases o7 with e7 | v7
    · rfl
    · rcases hfail with hf | hf | hf | hf | hf | hf <;> simp at hf
  · intro st o
    obtain ⟨sa⟩ := st
    cases sa with
    | none => exact ⟨none, rfl⟩
    | some h =>
      obtain ⟨m, y⟩ := o
      rcases m with e1 | u1
      · exact ⟨none, rfl⟩
      rcases y with e2 | v2
      · exact ⟨none, rfl⟩
      · exact ⟨some v2, rfl⟩
  · intro st o
    obtain ⟨sa⟩ := st
    cases sa with
    | none => exact ⟨none, rfl⟩
    | some h =>
      obtain ⟨m, y⟩ := o
      rcases m with e1 | u1
      · exact ⟨none, rfl⟩
      rcases y with e2 | v2
      · exact ⟨none, rfl⟩
      · exact ⟨some v2, rfl⟩
  · intro st sr sf ro o
    obtain ⟨sa⟩ := st
    cases sa with
    | none => exact ⟨none, rfl⟩
    | some h =>
      obtain ⟨o1, o2, o3⟩ := o
      rcases o1 with e1 | u1
      · exact ⟨none, rfl⟩
      rcases o2 with e2 | v2
      · exact ⟨none, rfl⟩
      rcases o3 with e3 | v3
      · exact ⟨none, rfl⟩
      · exact ⟨some v3, rfl⟩
  · intro st h span o hsa
    obtain ⟨sa⟩ := st
    obtain rfl : sa = some h := hsa
    obtain ⟨o1, o2, o3, o4, o5, o6, o7⟩ := o
    rcases o1 with e1 | u1
    · exact ⟨none, rfl⟩
    rcases o2 with e2 | u2
    · exact ⟨none, rfl⟩
    rcases o3 with e3 | v3
    · exact ⟨none, rfl⟩
    rcases o4 with e4 | u4
    · exact ⟨none, rfl⟩
    rcases o5 with e5 | v5
    · exact ⟨none, rfl⟩
    rcases o7 with e7 | v7
    · exact ⟨none, rfl⟩
    · exact ⟨some v7, rfl⟩

/-- Witness for C5 (amended): a disconnected session makes the
high-peak operation return `None` but makes band power raise the
not-connected fault; a connected high-peak call with a failing value
query returns `None`; a connected band-power call with a failing first
step returns `None`. -/
theorem measurement_engine_error_policy_witness :
    get_current_high_peak ⟨none⟩ ⟨.ok (), .ok "1"⟩ = .ok none ∧
    (get_band_power ⟨none⟩ 5 ⟨.ok (), .ok (), .ok "1", .ok (), .ok "1", .ok "1",
        .ok "1"⟩).1 = .error .notConnected ∧
    get_current_high_peak ⟨some ⟨5000, none⟩⟩ ⟨.ok (), .error .timeout⟩ = .ok none ∧
    (get_band_power ⟨some ⟨5000, none⟩⟩ 5 ⟨.error .timeout, .ok (), .ok "1",
        .ok (), .ok "1", .ok "1", .ok "1"⟩).1 = .ok none := by
  refine ⟨?_, ?_, ?_, ?_⟩
  · exact measurement_engine_error_policy.1 ⟨none⟩ ⟨.ok (), .ok "1"⟩ rfl
  · exact measurement_engine_error_policy.2.2.2.1 ⟨none⟩ 5 _ rfl
  · exact measurement_engine_error_policy.2.2.2.2.1 ⟨some ⟨5000, none⟩⟩
      ⟨5000, none⟩ ⟨.ok (), .error .timeout⟩ .timeout rfl (Or.inr rfl)
  · exact measurement_engine_error_policy.2.2.2.2.2.2.2.1 ⟨some ⟨5000, none⟩⟩
      ⟨5000, none⟩ 5 ⟨.error .timeout, .ok (), .ok "1", .ok (), .ok "1", .ok "1",
        .ok "1"⟩ .timeout rfl (Or.inl rfl)

/-- C7: on a connected session, when every step before the band-power
select succeeds and the `CALC:MARK:FUNC BPOW` select step fails, the
operation does not abort: the final `CALC:MARK1:Y?` query is still
issued (it is the last command of the issued-command log) and the
operation returns that query's result. -/
theorem band_power_survives_bpow_failure (st : SAState) (h : Handle) (span : ℚ)
    (o : BandOracle) (e : PyErr) (p : String)
    (hsa : st.sa = some h) (h1 : o.statOn = .ok ()) (h2 : o.bandOn = .ok ())
    (h3 : ∃ s, o.funcQ = .ok s) (h4 : o.spanSet = .ok ())
    (h5 : ∃ s, o.spanQ = .ok s) (hbp : o.bpowSel = .error e)
    (hy : o.yQ = .ok p) :
    (get_band_power st span o).1 = .ok (some p) ∧
      ∃ l, (get_band_power st span o).2.2 = l ++ ["CALC:MARK1:Y?"] := by
  obtain ⟨sa⟩ := st
  obtain rfl : sa = some h := hsa
  obtain ⟨s3, hs3⟩ := h3
  obtain ⟨s5, hs5⟩ := h5
  obtain ⟨o1, o2, o3, o4, o5, o6, o7⟩ := o
  obtain rfl : o1 = .ok () := h1
  obtain rfl : o2 = .ok () := h2
  obtain rfl : o3 = .ok s3 := hs3
  obtain rfl : o4 = .ok () := h4
  obtain rfl : o5 = .ok s5 := hs5
  obtain rfl : o6 = .error e := hbp
  obtain rfl : o7 = .ok p := hy
  exact ⟨rfl, ⟨_, rfl⟩⟩

/-- Witness for C7: a concrete connected call whose BPOW select times
out still returns the final query's value `"-42.0"` and ends its
command log with the marker-value query. -/
theorem band_power_survives_bpow_failure_witness :
    (get_band_power ⟨some ⟨5000, none⟩⟩ 2 ⟨.ok (), .ok (), .ok "BAND", .ok (),
        .ok "1000", .error .timeout, .ok "-42.0"⟩).1 = .ok (some "-42.0") ∧
      ∃ l, (get_band_power ⟨some ⟨5000, none⟩⟩ 2 ⟨.ok (), .ok (), .ok "BAND",
          .ok (), .ok "1000", .error .timeout, .ok "-42.0"⟩).2.2 =
        l ++ ["CALC:MARK1:Y?"] :=
  band_power_survives_bpow_failure ⟨some ⟨5000, none⟩⟩ ⟨5000, none⟩ 2
    ⟨.ok (), .ok (), .ok "BAND", .ok (), .ok "1000", .error .timeout, .ok "-42.0"⟩
    .timeout "-42.0" rfl rfl rfl ⟨"BAND", rfl⟩ rfl ⟨"1000", rfl⟩ rfl rfl

/-! ## Trace acquisition -/

/-- True iff every character is an ASCII decimal digit. -/
def allDigitChars (cs : List Char) : Bool :=
  cs.all fun c => decide (48 ≤ c.toNat ∧ c.toNat ≤ 57)

/-- Decimal value of a digit-character string. -/
def digitCharsVal (cs : List Char) : Nat :=
  cs.foldl (fun a c => a * 10 + (c.toNat - 48)) 0

/-- Python `float(s)` on an unsigned literal, restricted to the plain
decimal literals exchanged in the modelled SCPI conversations: integer
digits with an optional fractional part (`float` also accepts
exponents, `inf`/`nan` and surrounding whitespace; no modelled response
uses them).  `none` models the `ValueError` raise. -/
def pyFloatUnsigned (cs : List Char) : Option ℚ :=
  match cs.splitOn '.' with
  | [ip] =>
    if ip ≠ [] ∧ allDigitChars ip then some (digitCharsVal ip) else none
  | [ip, fp] =>
    if (ip ≠ [] ∨ fp ≠ []) ∧ allDigitChars ip ∧ allDigitChars fp then
      some ((digitCharsVal ip : ℚ) + (digitCharsVal fp : ℚ) / 10 ^ fp.length)
    else none
  | _ => none

/-- Python `float(s)` with an optional leading sign. -/
def pyFloat (s : String) : Option ℚ :=
  match s.toList with
  | '-' :: cs => (pyFloatUnsigned cs).map (fun q => -q)
  | '+' :: cs => pyFloatUnsigned cs
  | cs => pyFloatUnsigned cs

/-- Python `int(...)` applied to a float value: truncation toward zero. -/
def pyTrunc (q : ℚ) : ℤ := if 0 ≤ q then ⌊q⌋ else -⌊-q⌋

/-- Model of `float(resp or default)`: Python `or` yields the default exactly
when the response string is falsy, i.e. empty; a non-empty response
goes through `float`, whose `ValueError` propagates. -/
def pyOrFloat (s : String) (dflt : ℚ) : Except PyErr ℚ :=
  if s = "" then .ok dflt
  else
    match pyFloat s with
    | some q => .ok q
    | none => .error .valueError

/-- Model of `np.linspace(a, b, num)` over ℚ (endpoint included): `num` evenly
spaced points from `a` to `b`. -/
def np_linspace (a b : ℚ) (num : Nat) : List ℚ :=
  if num = 1 then [a]
  else (List.range num).map fun i : Nat =>
    a + (i : ℚ) * ((b - a) / ((num - 1 : Nat) : ℚ))

/-- Oracle for one `fetch_trace` call, one verdict per transport
interaction, in program order. -/
structure TraceOracle where
  /-- write `:FORM REAL,32` -/
  fmtReal : Except PyErr Unit
  /-- write `:FORM:BORD SWAP` -/
  fmtBord : Except PyErr Unit
  /-- query `SWE:POIN?` -/
  ptsQ : Except PyErr String
  /-- call `query_binary_values("TRAC:DATA? <name>", datatype f)` -/
  traceData : Except PyErr (List ℚ)
  /-- query `FREQ:CENT?` (via `get_center_frequency`) -/
  cfQ : Except PyErr String
  /-- query `FREQ:SPAN?` (via `get_span`) -/
  spanQ : Except PyErr String

/-- Model of `pts = int(float(self.query("SWE:POIN?")))` under `try/except` with
fallback 1001: a failing query and a non-numeric response both yield
the default point count. -/
def declared_pts (st : SAState) (o : TraceOracle) : ℤ :=
  match st.query o.ptsQ with
  | .ok s =>
    match pyFloat s with
    | some q => pyTrunc q
    | none => 1001
  | .error _ => 1001

/-- Method `fetch_trace`: raises not-connected when `self.sa` is `None`;
best-effort format writes (their outcome is only logged — it does not
affect the result); declared point count with fallback; binary trace
data, raising `noData` when the decoded sequence is empty; the decoded
length overrides the declared count when they disagree; center
frequency and span are read back as `float(query() or 0.0)` /
`float(query() or 1.0)` — the `or` default applies only to an *empty*
response while a raising readback propagates — and the frequency axis
is `np.linspace(cf - span/2, cf + span/2, pts)`. -/
def fetch_trace (st : SAState) (o : TraceOracle) :
    Except PyErr (List ℚ × List ℚ) :=
  match st.sa with
  | none => .error .notConnected
  | some _ =>
    let _fmt := (st.write o.fmtReal, st.write o.fmtBord)
    let pts : ℤ := declared_pts st o
    match st.query_binary_values o.traceData with
    | .error e => .error e
    | .ok trace =>
      if trace.length = 0 then .error .noData
      else
        let pts2 : ℤ := if (trace.length : ℤ) ≠ pts then (trace.length : ℤ) else pts
        match st.query o.cfQ with
        | .error e => .error e
        | .ok cfs =>
          match pyOrFloat cfs 0 with
          | .error e => .error e
          | .ok cf =>
            match st.query o.spanQ with
            | .error e => .error e
            | .ok ss =>
              match pyOrFloat ss 1 with
              | .error e => .error e
              | .ok span =>
                .ok (np_linspace (cf - span / 2) (cf + span / 2) pts2.toNat, trace)

/-- The synthesized axis always has exactly `num` points. -/
theorem np_linspace_length (a b : ℚ) (num : Nat) :
    (np_linspace a b num).length = num := by
  by_cases h : num = 1
  · subst h; rfl
  · simp [np_linspace, h]

/-- Pointwise value of the synthesized axis. -/
theorem np_linspace_getD (a b : ℚ) (num i : Nat) (hi : i < num) :
    (np_linspace a b num).getD i 0 =
      a + (i : ℚ) * ((b - a) / ((num - 1 : Nat) : ℚ)) := by
  by_cases h : num = 1
  · subst h
    have hi0 : i = 0 := by omega
    subst hi0
    simp [np_linspace]
  · have hlen : i < ((List.range num).map
        (fun i : Nat => a + (i : ℚ) * ((b - a) / ((num - 1 : Nat) : ℚ)))).length := by
      simpa using hi
    unfold np_linspace
    rw [if_neg h, List.getD_eq_getElem _ _ hlen]
    simp

/-- Characterization of a fully successful `fetch_trace` on a connected
session: the result pairs the synthesized axis with the decoded trace,
where the point count is the decoded length if it disagrees with the
declared count, else the declared count. -/
theorem fetch_trace_eq (h : Handle) (o : TraceOracle) (trace : List ℚ)
    (cfs ss : String) (cf span : ℚ)
    (htr : o.traceData = .ok trace) (hN0 : ¬ trace.length = 0)
    (hcf : o.cfQ = .ok cfs) (hcfv : pyOrFloat cfs 0 = .ok cf)
    (hsp : o.spanQ = .ok ss) (hspv : pyOrFloat ss 1 = .ok span) :
    fetch_trace ⟨some h⟩ o =
      .ok (np_linspace (cf - span / 2) (cf + span / 2)
          (if (trace.length : ℤ) ≠ declared_pts ⟨some h⟩ o then (trace.length : ℤ)
           else declared_pts ⟨some h⟩ o).toNat, trace) := by
  simp only [fetch_trace, SAState.query_binary_values, SAState.query, htr, hcf, hsp,
    hcfv, hspv, if_neg hN0]

/-- C2: when the decoded sample count `N` is non-zero and disagrees with
the declared point count `P`, the returned frequency axis has length
`N` (the decoded count wins) and its `i`-th entry is exactly
`cf - span/2 + i * span/(N-1)`. -/
theorem fetch_trace_axis (st : SAState) (h : Handle) (o : TraceOracle)
    (trace : List ℚ) (N : Nat) (P : ℤ) (cfs ss : String) (cf span : ℚ)
    (hsa : st.sa = some h) (htr : o.traceData = .ok trace)
    (hN : trace.length = N) (hN0 : 0 < N)
    (hP : declared_pts st o = P) (hNP : (N : ℤ) ≠ P)
    (hcf : o.cfQ = .ok cfs) (hcfv : pyOrFloat cfs 0 = .ok cf)
    (hsp : o.spanQ = .ok ss) (hspv : pyOrFloat ss 1 = .ok span) :
    fetch_trace st o =
      .ok (np_linspace (cf - span / 2) (cf + span / 2) N, trace) ∧
    (np_linspace (cf - span / 2) (cf + span / 2) N).length = N ∧
    ∀ i, i < N →
      (np_linspace (cf - span / 2) (cf + span / 2) N).getD i 0 =
        cf - span / 2 + (i : ℚ) * span / ((N - 1 : Nat) : ℚ) := by
  refine ⟨?_, np_linspace_length _ _ _, ?_⟩
  · obtain ⟨sa⟩ := st
    obtain rfl : sa = some h := hsa
    have he := fetch_trace_eq h o trace cfs ss cf span htr (by omega) hcf hcfv hsp hspv
    rw [he, hN, hP, if_pos hNP, Int.toNat_natCast]
  · intro i hi
    rw [np_linspace_getD _ _ _ _ hi]
    ring

/-- Witness for C2: five decoded samples against a declared count of
1001, with center 1 GHz and span 2 MHz, give exactly the axis
[0.999e9, 0.9995e9, 1e9, 1.0005e9, 1.001e9]. -/
theorem fetch_trace_axis_witness :
    fetch_trace ⟨some ⟨5000, none⟩⟩
        ⟨.ok (), .ok (), .ok "1001", .ok [1, 2, 3, 4, 5], .ok "1000000000",
         .ok "2000000"⟩ =
      .ok ([999000000, 999500000, 1000000000, 1000500000, 1001000000],
           [1, 2, 3, 4, 5]) := by
  have h := fetch_trace_axis ⟨some ⟨5000, none⟩⟩ ⟨5000, none⟩
      ⟨.ok (), .ok (), .ok "1001", .ok [1, 2, 3, 4, 5], .ok "1000000000",
       .ok "2000000"⟩
      [1, 2, 3, 4, 5] 5 1001 "1000000000" "2000000" 1000000000 2000000
      rfl rfl rfl (by norm_num) rfl (by norm_num) rfl (by rfl) rfl (by rfl)
  rw [h.1]
  norm_num [np_linspace, List.range_succ]

/-- Counterexample to C9: a trace fetch whose center-frequency readback
raises (a transport timeout — the readback being unavailable) does not
fall back to the 0 Hz default: the error propagates and the fetch
fails instead of returning a trace. -/
theorem fetch_trace_cf_failure_propagates :
    fetch_trace ⟨some ⟨5000, none⟩⟩
        ⟨.ok (), .ok (), .ok "1001", .ok [1, 2, 3], .error .timeout, .ok "1000"⟩ =
      .error .timeout := by
  rfl

/-- C9 amended: each default is applied independently, whenever the
corresponding readback *succeeds with an empty response*: an empty
center-frequency readback defaults the center to 0 Hz (whatever the
span readback's value), an empty span readback defaults the span to
1 Hz (whatever the center readback's value), and in both cases the
fetch still returns a trace; but a readback that raises is not
defaulted — its error propagates, from either readback, and the fetch
fails. -/
theorem fetch_trace_readback_defaults :
    (∀ st h o trace ss span, st.sa = some h → o.traceData = .ok trace →
      0 < trace.length → o.cfQ = .ok "" →
      o.spanQ = .ok ss → pyOrFloat ss 1 = .ok span →
      fetch_trace st o =
        .ok (np_linspace (0 - span / 2) (0 + span / 2) trace.length, trace)) ∧
    (∀ st h o trace cs cf, st.sa = some h → o.traceData = .ok trace →
      0 < trace.length → o.cfQ = .ok cs → pyOrFloat cs 0 = .ok cf →
      o.spanQ = .ok "" →
      fetch_trace st o =
        .ok (np_linspace (cf - 1 / 2) (cf + 1 / 2) trace.length, trace)) ∧
    (∀ st h o trace e, st.sa = some h → o.traceData = .ok trace →
      0 < trace.length → o.cfQ = .error e → fetch_trace st o = .error e) ∧
    (∀ st h o trace cs cf e, st.sa = some h → o.traceData = .ok trace →
      0 < trace.length → o.cfQ = .ok cs → pyOrFloat cs 0 = .ok cf →
      o.spanQ = .error e → fetch_trace st o = .error e) := by
  have hif : ∀ (h : Handle) (o : TraceOracle) (trace : List ℚ),
      (if (trace.length : ℤ) ≠ declared_pts ⟨some h⟩ o
       then (trace.length : ℤ) else declared_pts ⟨some h⟩ o) = (trace.length : ℤ) := by
    intro h o trace
    split
    · rfl
    · next hcond => exact (not_ne_iff.mp hcond).symm
  refine ⟨?_, ?_, ?_, ?_⟩
  · intro st h o trace ss span hsa htr hN0 hcf hsp hspv
    obtain ⟨sa⟩ := st
    obtain rfl : sa = some h := hsa
    have he := fetch_trace_eq h o trace "" ss 0 span htr (by omega) hcf rfl hsp hspv
    rw [he, hif h o trace, Int.toNat_natCast]
  · intro st h o trace cs cf hsa htr hN0 hcf hcfv hsp
    obtain ⟨sa⟩ := st
    obtain rfl : sa = some h := hsa
    have he := fetch_trace_eq h o trace cs "" cf 1 htr (by omega) hcf hcfv hsp rfl
    rw [he, hif h o trace, Int.toNat_natCast]
  · intro st h o trace e hsa htr hN0 hcf
    obtain ⟨sa⟩ := st
    obtain rfl : sa = some h := hsa
    simp only [fetch_trace, SAState.query_binary_values, SAState.query, htr, hcf,
      if_neg (by omega : ¬ trace.length = 0)]
  · intro st h o trace cs cf e hsa htr hN0 hcf hcfv hsp
    obtain ⟨sa⟩ := st
    obtain rfl : sa = some h := hsa
    simp only [fetch_trace, SAState.query_binary_values, SAState.query, htr, hcf,
      hcfv, hsp, if_neg (by omega : ¬ trace.length = 0)]

/-- Witness for C9 (amended): two samples with an empty
center-frequency readback and a numeric span readback of 4 Hz give a
trace whose axis is centered on the 0 Hz default, namely [-2, 2]; and
the same fetch with a raising span readback fails with that error. -/
theorem fetch_trace_readback_defaults_witness :
    fetch_trace ⟨some ⟨5000, none⟩⟩
        ⟨.ok (), .ok (), .ok "1001", .ok [5, 6], .ok "", .ok "4"⟩ =
      .ok ([-2, 2], [5, 6]) ∧
    fetch_trace ⟨some ⟨5000, none⟩⟩
        ⟨.ok (), .ok (), .ok "1001", .ok [5, 6], .ok "1000", .error .timeout⟩ =
      .error .timeout := by
  constructor
  · have h := fetch_trace_readback_defaults.1 ⟨some ⟨5000, none⟩⟩ ⟨5000, none⟩
        ⟨.ok (), .ok (), .ok "1001", .ok [5, 6], .ok "", .ok "4"⟩ [5, 6] "4" 4
        rfl rfl (by norm_num) rfl rfl (by rfl)
    rw [h]
    norm_num [np_linspace, List.range_succ]
  · exact fetch_trace_readback_defaults.2.2.2 ⟨some ⟨5000, none⟩⟩ ⟨5000, none⟩
      ⟨.ok (), .ok (), .ok "1001", .ok [5, 6], .ok "1000", .error .timeout⟩ [5, 6]
      "1000" 1000 .timeout rfl rfl (by norm_num) rfl (by rfl) rfl

/-! ## Screenshot retrieval -/

/-- Python substring membership `needle in haystack`: the needle occurs
contiguously at some offset of the haystack. -/
def pyIn (needle haystack : String) : Bool :=
  let n := needle.toList
  let hs := haystack.toList
  (List.range (hs.length + 1)).any fun i => decide ((hs.drop i).take n.length = n)

/-- The fixed ordered candidate list of `capture_screen` (remote
directory, log description).  Python raw strings keep both characters
of `\\`, so the literals contain doubled backslashes. -/
def screen_attempts : List (String × String) :=
  [("D:\\\\Users\\\\Instrument\\\\Documents\\\\SA\\\\screen",
    "hiSky instrument SA screen folder"),
   ("SA\\\\screen", "default subdir"),
   ("C:\\\\temp", "root temp dir"),
   ("D:\\\\", "root D drive"),
   ("C:\\\\", "root C drive")]

/-- Oracle for one candidate directory of `capture_screen`. -/
structure AttemptOracle where
  /-- the store step: write `:MMEM:STOR:SCR "<path>"` followed by the
  `*OPC?` barrier (a failure of either transport interaction fails the
  step; the settling sleep cannot fail). -/
  store : Except PyErr Unit
  /-- query `:MMEM:CAT? "<subdir>"`: the directory-listing text. -/
  cat : Except PyErr String
  /-- the guarded transfer: write `:MMEM:DATA? "<path>"`, decode the
  IEEE block and write the decoded bytes to the local file; one verdict
  for the whole inner `try` body. -/
  fetch : Except PyErr (List Nat)

/-- The candidate loop of `capture_screen` over an ordered list of
(candidate, oracle) pairs, threading `last_error` and the handle whose
timeout and chunk size the transfer step temporarily overrides.
Per candidate: a failing store records the error and advances; a
directory listing that runs and reports the file absent advances
without recording an error; a listing failure is only logged and the
transfer proceeds optimistically; around the transfer the timeout is
raised to 120000 and the chunk size to 1048576, both restored in
`finally` on success and on failure.  Returns ((local path, remote
path) — `(none, none)` when every candidate fails — the final
`last_error` (printed for diagnostics), the final handle, and the
remote paths tried in order (the `Trying` log). -/
def capture_attempts (timestamp local_filename : String) :
    List ((String × String) × AttemptOracle) → Option PyErr → Handle →
      (Option String × Option String) × Option PyErr × Handle × List String
  | [], last_error, h => ((none, none), last_error, h, [])
  | ((subdir, _desc), o) :: rest, last_error, h =>
    let remote_name := "Screenshot_" ++ timestamp ++ ".PNG"
    let remote_path := subdir ++ "\\" ++ remote_name
    match o.store with
    | .error e =>
      let r := capture_attempts timestamp local_filename rest (some e) h
      (r.1, r.2.1, r.2.2.1, remote_path :: r.2.2.2)
    | .ok _ =>
      let present : Bool :=
        match o.cat with
        | .ok cat => pyIn remote_name cat
        | .error _ => true
      if present then
        let old_timeout := h.timeout
        let old_chunk := h.observedChunk
        let h1 : Handle := { timeout := 120000, chunk_size := some 1048576 }
        match o.fetch with
        | .ok _data =>
          let h2 : Handle :=
            { h1 with timeout := old_timeout, chunk_size := some old_chunk }
          ((some local_filename, some remote_path), last_error, h2, [remote_path])
        | .error e =>
          let h2 : Handle :=
            { h1 with timeout := old_timeout, chunk_size := some old_chunk }
          let r := capture_attempts timestamp local_filename rest (some e) h2
          (r.1, r.2.1, r.2.2.1, remote_path :: r.2.2.2)
      else
        let r := capture_attempts timestamp local_filename rest last_error h
        (r.1, r.2.1, r.2.2.1, remote_path :: r.2.2.2)

/-- Method `capture_screen`: raises not-connected when there is no session;
computes the timestamped remote name and the default local filename
`screenshot_<timestamp>.png` when none is given; then runs the
candidate loop over the five fixed candidate directories with
`last_error = None`. -/
def capture_screen (st : SAState) (timestamp : String)
    (local_filename : Option String) (oracles : List AttemptOracle) :
    Except PyErr
      ((Option String × Option String) × Option PyErr × SAState × List String) :=
  match st.sa with
  | none => .error .notConnected
  | some h =>
    let local_fn := local_filename.getD ("screenshot_" ++ timestamp ++ ".png")
    let r := capture_attempts timestamp local_fn (screen_attempts.zip oracles) none h
    .ok (r.1, r.2.1, ⟨some r.2.2.1⟩, r.2.2.2)

/-- Whatever the oracle outcomes, the candidate loop returns the handle
with its original timeout and its original observable chunk size: every
transfer override is restored on every exit path. -/
theorem capture_attempts_restores (ts lf : String) :
    ∀ cands last_error h,
      (capture_attempts ts lf cands last_error h).2.2.1.timeout = h.timeout ∧
      (capture_attempts ts lf cands last_error h).2.2.1.observedChunk =
        h.observedChunk := by
  intro cands
  induction cands with
  | nil => intro le h; exact ⟨rfl, rfl⟩
  | cons c rest ih =>
    intro le h
    obtain ⟨⟨subdir, dsc⟩, o⟩ := c
    simp only [capture_attempts]
    split
    · simpa using ih _ h
    · split
      · split
        · exact ⟨rfl, rfl⟩
        · simpa [Handle.observedChunk] using
            ih _ { timeout := h.timeout, chunk_size := some h.observedChunk }
      · simpa using ih le h

/-- C4: band power and the screenshot operation restore the session's
timeout (and, for the screenshot transfer, the observable chunk size)
on every exit path, for every oracle outcome: the values observed after
the operation returns equal the values observed immediately before. -/
theorem overrides_restored :
    (∀ st h span o, st.sa = some h →
      ∃ h2, (get_band_power st span o).2.1.sa = some h2 ∧
        h2.timeout = h.timeout) ∧
    (∀ st h ts lf os r, st.sa = some h → capture_screen st ts lf os = .ok r →
      ∃ h2, r.2.2.1.sa = some h2 ∧ h2.timeout = h.timeout ∧
        h2.observedChunk = h.observedChunk) := by
  constructor
  · intro st h span o hsa
    obtain ⟨sa⟩ := st
    obtain rfl : sa = some h := hsa
    obtain ⟨o1, o2, o3, o4, o5, o6, o7⟩ := o
    rcases o1 with e1 | u1
    · exact ⟨_, rfl, rfl⟩
    rcases o2 with e2 | u2
    · exact ⟨_, rfl, rfl⟩
    rcases o3 with e3 | v3
    · exact ⟨_, rfl, rfl⟩
    rcases o4 with e4 | u4
    · exact ⟨_, rfl, rfl⟩
    rcases o5 with e5 | v5
    · exact ⟨_, rfl, rfl⟩
    rcases o7 with e7 | v7
    · exact ⟨_, rfl, rfl⟩
    · exact ⟨_, rfl, rfl⟩
  · intro st h ts lf os r hsa hr
    obtain ⟨sa⟩ := st
    obtain rfl : sa = some h := hsa
    simp only [capture_screen] at hr
    injection hr with hr
    subst hr
    exact ⟨_, rfl,
      (capture_attempts_restores ts _ (screen_attempts.zip os) none h).1,
      (capture_attempts_restores ts _ (screen_attempts.zip os) none h).2⟩

/-- Witness for C4: a concrete connected band-power call and a concrete
screenshot capture whose single attempt fails in the transfer step both
end with timeout 5000 and observable chunk size 20000, as before. -/
theorem overrides_restored_witness :
    (∃ h2, (get_band_power ⟨some ⟨5000, none⟩⟩ 1 ⟨.ok (), .ok (), .ok "1", .ok (),
        .ok "1", .ok "1", .ok "9"⟩).2.1.sa = some h2 ∧ h2.timeout = 5000) ∧
    (∃ r, capture_screen ⟨some ⟨5000, none⟩⟩ "T" none
        [⟨.ok (), .ok "Screenshot_T.PNG", .error .timeout⟩] = .ok r ∧
      ∃ h2, r.2.2.1.sa = some h2 ∧ h2.timeout = 5000 ∧
        h2.observedChunk = 20000) := by
  constructor
  · exact overrides_restored.1 ⟨some ⟨5000, none⟩⟩ ⟨5000, none⟩ 1
      ⟨.ok (), .ok (), .ok "1", .ok (), .ok "1", .ok "1", .ok "9"⟩ rfl
  · refine ⟨_, rfl, ?_⟩
    exact overrides_restored.2 ⟨some ⟨5000, none⟩⟩ ⟨5000, none⟩ "T" none
      [⟨.ok (), .ok "Screenshot_T.PNG", .error .timeout⟩] _ rfl rfl

/-- When every candidate of a prefix has a succeeding store and a
directory listing that runs and reports the file absent, the loop
passes over the whole prefix with the error accumulator and the handle
unchanged, prepending the prefix's tried remote paths. -/
theorem capture_attempts_skip (ts lf : String) :
    ∀ first lastlist last_error h,
      (∀ c ∈ first, c.2.store = .ok () ∧
        ∃ s, c.2.cat = .ok s ∧ pyIn ("Screenshot_" ++ ts ++ ".PNG") s = false) →
      capture_attempts ts lf (first ++ lastlist) last_error h =
        ((capture_attempts ts lf lastlist last_error h).1,
         (capture_attempts ts lf lastlist last_error h).2.1,
         (capture_attempts ts lf lastlist last_error h).2.2.1,
         first.map (fun c => c.1.1 ++ "\\" ++ ("Screenshot_" ++ ts ++ ".PNG")) ++
           (capture_attempts ts lf lastlist last_error h).2.2.2) := by
  intro first
  induction first with
  | nil =>
    intro ll le h habs
    simp
  | cons c rest ih =>
    intro ll le h habs
    obtain ⟨⟨subdir, dsc⟩, o⟩ := c
    obtain ⟨hst0, s, hcat0, hpi⟩ := habs _ (List.mem_cons_self _ _)
    have hst : o.store = .ok () := hst0
    have hcat : o.cat = .ok s := hcat0
    have hrest := ih ll le h (fun c hc => habs c (List.mem_cons_of_mem _ hc))
    simp only [List.cons_append, capture_attempts, hst, hcat, hpi, hrest]
    simp [hrest]

/-- C6: over an ordered candidate list `first ++ [lastc]` in which every
candidate of `first` stores successfully and has a listing that runs
and reports the file absent: the loop tries every candidate in order
(the tried-path log is exactly the full candidate list's remote
paths); if the last candidate's transfer succeeds, the operation
returns the local path and that candidate's remote path; if its
transfer fails, the operation returns (none, none) and records that
last error. -/
theorem capture_fallback_chain (ts lf : String)
    (first : List ((String × String) × AttemptOracle))
    (lastc : (String × String) × AttemptOracle) (h : Handle)
    (habsent : ∀ c ∈ first, c.2.store = .ok () ∧
      ∃ s, c.2.cat = .ok s ∧ pyIn ("Screenshot_" ++ ts ++ ".PNG") s = false) :
    (capture_attempts ts lf (first ++ [lastc]) none h).2.2.2 =
      (first ++ [lastc]).map
        (fun c => c.1.1 ++ "\\" ++ ("Screenshot_" ++ ts ++ ".PNG")) ∧
    (∀ data, lastc.2.store = .ok () → lastc.2.fetch = .ok data →
      (∃ s, lastc.2.cat = .ok s ∧
        pyIn ("Screenshot_" ++ ts ++ ".PNG") s = true) →
      (capture_attempts ts lf (first ++ [lastc]) none h).1 =
        (some lf, some (lastc.1.1 ++ "\\" ++ ("Screenshot_" ++ ts ++ ".PNG")))) ∧
    (∀ e, lastc.2.store = .ok () → lastc.2.fetch = .error e →
      (∃ s, lastc.2.cat = .ok s ∧
        pyIn ("Screenshot_" ++ ts ++ ".PNG") s = true) →
      (capture_attempts ts lf (first ++ [lastc]) none h).1 = (none, none) ∧
      (capture_attempts ts lf (first ++ [lastc]) none h).2.1 = some e) := by
  have hskip := capture_attempts_skip ts lf first [lastc] none h habsent
  obtain ⟨⟨subdir, dsc⟩, o⟩ := lastc
  refine ⟨?_, ?_, ?_⟩
  · rw [hskip]
    have hlast : (capture_attempts ts lf [((subdir, dsc), o)] none h).2.2.2 =
        [subdir ++ "\\" ++ ("Screenshot_" ++ ts ++ ".PNG")] := by
      simp only [capture_attempts]
      split
      · rfl
      · split
        · split
          · rfl
          · rfl
        · rfl
    simp [hlast]
  · rintro data hst0 hfetch0 ⟨s, hcat0, hpi⟩
    have hst : o.store = .ok () := hst0
    have hcat : o.cat = .ok s := hcat0
    have hfetch : o.fetch = .ok data := hfetch0
    rw [hskip]
    simp [capture_attempts, hst, hcat, hpi, hfetch]
  · rintro e hst0 hfetch0 ⟨s, hcat0, hpi⟩
    have hst : o.store = .ok () := hst0
    have hcat : o.cat = .ok s := hcat0
    have hfetch : o.fetch = .error e := hfetch0
    rw [hskip]
    constructor
    · simp [capture_attempts, hst, hcat, hpi, hfetch]
    · simp [capture_attempts, hst, hcat, hpi, hfetch]

/-- Witness for C6: three candidates; the first two store successfully
but their listings lack the file name; the third lists it and its
transfer succeeds.  All three remote paths are tried in order and the
result names the third candidate's remote path. -/
theorem capture_fallback_chain_witness :
    (capture_attempts "T" "local.png"
        ([(("d1", "x"), ⟨.ok (), .ok "nothing", .ok []⟩),
          (("d2", "y"), ⟨.ok (), .ok "also empty", .ok []⟩)] ++
         [(("d3", "z"), ⟨.ok (), .ok "Screenshot_T.PNG", .ok [1, 2]⟩)])
        none ⟨5000, none⟩).2.2.2 =
      ["d1\\Screenshot_T.PNG", "d2\\Screenshot_T.PNG", "d3\\Screenshot_T.PNG"] ∧
    (capture_attempts "T" "local.png"
        ([(("d1", "x"), ⟨.ok (), .ok "nothing", .ok []⟩),
          (("d2", "y"), ⟨.ok (), .ok "also empty", .ok []⟩)] ++
         [(("d3", "z"), ⟨.ok (), .ok "Screenshot_T.PNG", .ok [1, 2]⟩)])
        none ⟨5000, none⟩).1 =
      (some "local.png", some "d3\\Screenshot_T.PNG") := by
  have habs : ∀ c ∈ [(("d1", "x"), (⟨.ok (), .ok "nothing", .ok []⟩ : AttemptOracle)),
      (("d2", "y"), ⟨.ok (), .ok "also empty", .ok []⟩)],
      c.2.store = .ok () ∧ ∃ s, c.2.cat = .ok s ∧
        pyIn ("Screenshot_" ++ "T" ++ ".PNG") s = false := by
    intro c hc
    simp only [List.mem_cons, List.not_mem_nil, or_false] at hc
    rcases hc with rfl | rfl
    · exact ⟨rfl, "nothing", rfl, by decide⟩
    · exact ⟨rfl, "also empty", rfl, by decide⟩
  have h := capture_fallback_chain "T" "local.png"
      [(("d1", "x"), ⟨.ok (), .ok "nothing", .ok []⟩),
       (("d2", "y"), ⟨.ok (), .ok "also empty", .ok []⟩)]
      (("d3", "z"), ⟨.ok (), .ok "Screenshot_T.PNG", .ok [1, 2]⟩) ⟨5000, none⟩ habs
  constructor
  · rw [h.1]; decide
  · exact h.2.1 [1, 2] rfl rfl ⟨"Screenshot_T.PNG", rfl, by decide⟩
